import Mathlib

/-!
Shallow embedding of `src/pyramid/config/predicates.py`: the predicate
variants (construction, `text`, `phash`, `__call__`) of the predicate
evaluation and identity layer, together with models of the consumed
collaborators (Python truthiness, the regular-expression engine, the
route-pattern compiler and the traversal-path splitter).

Machine-level conventions: Python strings are `String`, Python dicts used
as string-to-string mappings are association lists looked up with
`List.lookup`, `None`-able values are `Option`, and a constructor that can
raise returns `Except PyExc _`.
-/

deriving instance DecidableEq for Except

namespace Pyramid

/-- Model of a Python value, as far as the predicates inspect one:
`bool()` truthiness is all that `XHRPredicate` needs. -/
inductive PyVal where
  | none : PyVal
  | bool (b : Bool) : PyVal
  | int (n : Int) : PyVal
  | str (s : String) : PyVal
deriving DecidableEq

/-- Python `bool(v)` truthiness: `None`, `False`, `0` and `''` are falsy. -/
def pyBool : PyVal → Bool
  | .none => false
  | .bool b => b
  | .int n => n != 0
  | .str s => s != ""

/-- Python `'%s' % b` for a `bool`: `"True"` or `"False"`. -/
def pyBoolStr (b : Bool) : String :=
  if b then "True" else "False"

/-- Python's whitespace set for `str.strip()` (and the `\s` regex class):
space, tab, newline, carriage return, vertical tab, form feed. -/
def isPyWs (c : Char) : Bool :=
  c = ' ' || c = '\t' || c = '\n' || c = '\r' || c.toNat = 11 || c.toNat = 12

/-- Python `str.strip()`: drop leading and trailing whitespace. -/
def pyStrip (s : String) : String :=
  String.mk (((s.toList.dropWhile isPyWs).reverse.dropWhile isPyWs).reverse)

/-- Helper for `str.split(sep, 1)`: split a character list at the first
occurrence of `sep`, or `none` when `sep` does not occur. -/
def splitOnceAux (sep : Char) : List Char → Option (List Char × List Char)
  | [] => Option.none
  | c :: cs =>
    if c = sep then some ([], cs)
    else
      match splitOnceAux sep cs with
      | Option.none => Option.none
      | some (a, b) => some (c :: a, b)

/-- Python `s.split(sep, 1)` when it yields two parts; `none` when `sep`
is absent from `s` (the split would yield a single part). -/
def splitOnce (sep : Char) (s : String) : Option (String × String) :=
  match splitOnceAux sep s.toList with
  | Option.none => Option.none
  | some (a, b) => some (String.mk a, String.mk b)

/-- Python `sep in s` membership test for a single character. -/
def hasCharL (sep : Char) : List Char → Bool
  | [] => false
  | c :: cs => if c = sep then true else hasCharL sep cs

/-- Python `sep in s` on a string. -/
def hasChar (sep : Char) (s : String) : Bool :=
  hasCharL sep s.toList

theorem splitOnceAux_isNone_iff (sep : Char) (l : List Char) :
    splitOnceAux sep l = Option.none ↔ hasCharL sep l = false := by
  induction l with
  | nil => simp [splitOnceAux, hasCharL]
  | cons c cs ih =>
    by_cases h : c = sep
    · simp [splitOnceAux, hasCharL, h]
    · simp only [splitOnceAux, hasCharL, if_neg h]
      cases hs : splitOnceAux sep cs with
      | none => simpa [hs] using ih
      | some p => simp [hs, ← ih]

theorem splitOnce_isNone_iff (sep : Char) (s : String) :
    splitOnce sep s = Option.none ↔ hasChar sep s = false := by
  unfold splitOnce hasChar
  cases hs : splitOnceAux sep s.toList with
  | none => simpa [hs] using (splitOnceAux_isNone_iff sep s.toList).mp hs
  | some p =>
    simp only [hs]
    constructor
    · intro h; cases h
    · intro h
      have := (splitOnceAux_isNone_iff sep s.toList).mpr h
      rw [hs] at this
      cases this

/-- Character classes occurring in the modelled regular-expression
language: a literal character, the `.` wildcard, and the `\d`, `\w`, `\s`
escape classes with their complements. -/
inductive CharClass where
  | lit (c : Char) : CharClass
  | any : CharClass
  | digit : CharClass
  | nonDigit : CharClass
  | word : CharClass
  | nonWord : CharClass
  | space : CharClass
  | nonSpace : CharClass
deriving DecidableEq

/-- Whether a character belongs to a character class (Python semantics:
`.` matches everything except a newline, `\w` is alphanumerics plus
underscore, `\s` is the whitespace set). -/
def matchChar : CharClass → Char → Bool
  | .lit c, x => x = c
  | .any, x => !(x = '\n')
  | .digit, x => x.isDigit
  | .nonDigit, x => !x.isDigit
  | .word, x => x.isAlphanum || x = '_'
  | .nonWord, x => !(x.isAlphanum || x = '_')
  | .space, x => isPyWs x
  | .nonSpace, x => !isPyWs x

/-- Regular expressions of the modelled engine. `void` (the empty
language) never comes out of compilation; the derivative-based matcher
produces it. -/
inductive Re where
  | void : Re
  | eps : Re
  | cls (k : CharClass) : Re
  | alt (a b : Re) : Re
  | cat (a b : Re) : Re
  | star (a : Re) : Re
deriving DecidableEq

/-- Whether the language of `r` contains the empty string. -/
def nullable : Re → Bool
  | .void => false
  | .eps => true
  | .cls _ => false
  | .alt a b => nullable a || nullable b
  | .cat a b => nullable a && nullable b
  | .star _ => true

/-- Brzozowski derivative of `r` by the character `c`. -/
def deriv : Re → Char → Re
  | .void, _ => .void
  | .eps, _ => .void
  | .cls k, c => if matchChar k c then .eps else .void
  | .alt a b, c => .alt (deriv a c) (deriv b c)
  | .cat a b, c =>
    if nullable a then .alt (.cat (deriv a c) b) (deriv b c)
    else .cat (deriv a c) b
  | .star a, c => .cat (deriv a c) (.star a)

/-- Python `compiled.match(s) is not None` semantics: does `r` match some
prefix of the input, i.e. does the match anchored at position 0 succeed
(the pattern may consume only a prefix of the string)? -/
def matchFromStart : Re → List Char → Bool
  | r, [] => nullable r
  | r, c :: cs => nullable r || matchFromStart (deriv r c) cs

/-- The character class denoted by the escape `\c`. -/
def escCls (c : Char) : CharClass :=
  if c = 'd' then .digit
  else if c = 'D' then .nonDigit
  else if c = 'w' then .word
  else if c = 'W' then .nonWord
  else if c = 's' then .space
  else if c = 'S' then .nonSpace
  else .lit c

/-- Modelled from the spec: the consumed regular-expression engine's
compiler (§6: "compile-time failure must be catchable and convertible
into a configuration-error with the engine's own message preserved
verbatim"); `re` is an external collaborator, not part of this
repository. The model supports a representative subset of the language:
literal characters, `.`, escape classes, and the postfix quantifiers
`*`, `+`, `?`. The two modelled compile failures are a trailing
backslash ("bogus escape (end of line)") and a leading quantifier
("nothing to repeat"). `acc` holds the atoms parsed so far, reversed. -/
def reParseAux : List Char → List Re → Except String (List Re)
  | [], acc => .ok acc.reverse
  | '\\' :: [], _ => .error "bogus escape (end of line)"
  | '\\' :: c :: rest, acc => reParseAux rest (.cls (escCls c) :: acc)
  | '*' :: rest, a :: acc => reParseAux rest (.star a :: acc)
  | '*' :: _, [] => .error "nothing to repeat"
  | '+' :: rest, a :: acc => reParseAux rest (.cat a (.star a) :: acc)
  | '+' :: _, [] => .error "nothing to repeat"
  | '?' :: rest, a :: acc => reParseAux rest (.alt a .eps :: acc)
  | '?' :: _, [] => .error "nothing to repeat"
  | '.' :: rest, acc => reParseAux rest (.cls .any :: acc)
  | c :: rest, acc => reParseAux rest (.cls (.lit c) :: acc)

/-- Python `re.compile`: parse the pattern into a sequence of atoms and
concatenate them, or fail with the engine's diagnostic message. -/
def reCompile (s : String) : Except String Re :=
  (reParseAux s.toList []).map (fun atoms => atoms.foldr .cat .eps)

example : reCompile "\\" = .error "bogus escape (end of line)" := by decide

example :
    (reCompile "bar").map (fun r => matchFromStart r "barista".toList) =
      .ok true := by decide

example :
    (reCompile "bar").map (fun r => matchFromStart r "abar".toList) =
      .ok false := by decide

/-- The exceptions a predicate constructor can raise:
`ConfigurationError` (from `pyramid.exceptions`) and Python's built-in
`ValueError` (from tuple unpacking). -/
inductive PyExc where
  | configurationError (msg : String) : PyExc
  | valueError (msg : String) : PyExc
deriving DecidableEq

/-- The request collaborator (§6): the attributes the predicates read.
String-valued mappings are association lists; `is_xhr` is an arbitrary
Python value because `XHRPredicate.__call__` coerces it with `bool()`. -/
structure Request where
  is_xhr : PyVal
  method : String
  upath_info : String
  params : List (String × String)
  headers : List (String × String)
  matchdict : List (String × String)
  accept : List String

/-- A raw configuration value that is either a single string or an
iterable of strings (`is_nonstr_iter` distinguishes the two). -/
inductive StrOrIter where
  | str (s : String) : StrOrIter
  | iter (l : List String) : StrOrIter
deriving DecidableEq

/-- Modelled from the spec: `is_nonstr_iter`-based normalization
(`pyramid.compat` is not under src/) — "a single string becomes a
one-element sequence" (§4.1). -/
def stiToList : StrOrIter → List String
  | .str s => [s]
  | .iter l => l

/-- Lexicographic comparison of character lists by Unicode code points,
the order Python uses to compare strings. -/
def charListLe : List Char → List Char → Bool
  | [], _ => true
  | _ :: _, [] => false
  | a :: as, b :: bs =>
    if a.toNat < b.toNat then true
    else if b.toNat < a.toNat then false
    else charListLe as bs

/-- Python `a <= b` on strings, as a proposition. -/
def pyLeProp (a b : String) : Prop :=
  charListLe a.toList b.toList = true

instance : DecidableRel pyLeProp := fun a b => by
  unfold pyLeProp; infer_instance

theorem charListLe_total (as bs : List Char) :
    charListLe as bs = true ∨ charListLe bs as = true := by
  induction as generalizing bs with
  | nil => left; rfl
  | cons a as ih =>
    cases bs with
    | nil => right; rfl
    | cons b bs =>
      rcases Nat.lt_trichotomy a.toNat b.toNat with h | h | h
      · left; simp [charListLe, h]
      · rcases ih bs with h2 | h2
        · left; simp [charListLe, h, h2]
        · right; simp [charListLe, h.symm, h2]
      · right; simp [charListLe, h]

theorem char_toNat_inj {a b : Char} (h : a.toNat = b.toNat) : a = b :=
  (StrictMono.injective (f := Char.toNat) fun _ _ hlt => hlt) h

theorem charListLe_antisymm (as bs : List Char)
    (h1 : charListLe as bs = true) (h2 : charListLe bs as = true) :
    as = bs := by
  induction as generalizing bs with
  | nil =>
    cases bs with
    | nil => rfl
    | cons b bs => simp [charListLe] at h2
  | cons a as ih =>
    cases bs with
    | nil => simp [charListLe] at h1
    | cons b bs =>
      rcases Nat.lt_trichotomy a.toNat b.toNat with h | h | h
      · simp [charListLe, h, Nat.lt_asymm h] at h2
      · have hab : a = b := char_toNat_inj h
        simp only [charListLe, h, Nat.lt_irrefl, if_false] at h1 h2
        rw [hab, ih bs h1 h2]
      · simp [charListLe, h, Nat.lt_asymm h] at h1

theorem charListLe_trans (as bs cs : List Char)
    (h1 : charListLe as bs = true) (h2 : charListLe bs cs = true) :
    charListLe as cs = true := by
  induction as generalizing bs cs with
  | nil => rfl
  | cons a as ih =>
    cases bs with
    | nil => simp [charListLe] at h1
    | cons b bs =>
      cases cs with
      | nil => simp [charListLe] at h2
      | cons c cs =>
        rcases Nat.lt_trichotomy a.toNat b.toNat with hab | hab | hab
        · rcases Nat.lt_trichotomy b.toNat c.toNat with hbc | hbc | hbc
          · simp [charListLe, Nat.lt_trans hab hbc]
          · simp [charListLe, hbc ▸ hab]
          · simp [charListLe, hbc, Nat.lt_asymm hbc] at h2
        · rcases Nat.lt_trichotomy b.toNat c.toNat with hbc | hbc | hbc
          · simp [charListLe, hab ▸ hbc]
          · simp only [charListLe, hab, hbc, Nat.lt_irrefl, if_false] at h1 h2
            simp only [charListLe, hab.trans hbc, Nat.lt_irrefl, if_false]
            exact ih bs cs h1 h2
          · simp [charListLe, hbc, Nat.lt_asymm hbc] at h2
        · simp [charListLe, hab, Nat.lt_asymm hab] at h1

instance : IsTotal String pyLeProp :=
  ⟨fun a b => charListLe_total a.toList b.toList⟩

instance : IsTrans String pyLeProp :=
  ⟨fun a b c => charListLe_trans a.toList b.toList c.toList⟩

instance : IsAntisymm String pyLeProp :=
  ⟨fun a b h1 h2 => by
    have := charListLe_antisymm a.toList b.toList h1 h2
    exact String.ext (by simpa [String.toList] using this)⟩

/-- Python `sorted` on strings: stable insertion sort under the
code-point lexicographic order. -/
def pySorted (l : List String) : List String :=
  l.insertionSort pyLeProp

/-- Sorting is canonical: permutation-equal inputs sort identically. -/
theorem pySorted_eq_of_perm {l1 l2 : List String} (h : l1.Perm l2) :
    pySorted l1 = pySorted l2 :=
  List.eq_of_perm_of_sorted
    ((List.perm_insertionSort pyLeProp l1).trans
      (h.trans (List.perm_insertionSort pyLeProp l2).symm))
    (List.sorted_insertionSort pyLeProp l1)
    (List.sorted_insertionSort pyLeProp l2)

/-- Modelled from the spec: the sorting/canonicalization helper
`as_sorted_tuple` (§4.1; `pyramid.config.util` is not under src/) —
"a sorted, duplicate-free, order-stable sequence of strings". -/
def as_sorted_tuple (v : StrOrIter) : List String :=
  pySorted (stiToList v).dedup

/-- Python `XHRPredicate`: stores `bool(val)`. -/
structure XHRPred where
  val : Bool
deriving DecidableEq

/-- Python `XHRPredicate.__init__`. -/
def xhrInit (val : PyVal) : XHRPred :=
  ⟨pyBool val⟩

/-- Python `XHRPredicate.text`: `'xhr = %s' % self.val`. -/
def XHRPred.text (p : XHRPred) : String :=
  "xhr = " ++ pyBoolStr p.val

/-- Python `XHRPredicate.phash = text`. -/
def XHRPred.phash : XHRPred → String :=
  XHRPred.text

/-- Python `XHRPredicate.__call__`: `bool(request.is_xhr) is self.val` (`is` on
two `bool`s is boolean equality). -/
def xhrCall (p : XHRPred) (_context : PyVal) (request : Request) : Bool :=
  pyBool request.is_xhr == p.val

/-- Python `RequestMethodPredicate`: stores `as_sorted_tuple(val)`. -/
structure RequestMethodPred where
  val : List String
deriving DecidableEq

/-- Python `RequestMethodPredicate.__init__`. -/
def requestMethodInit (val : StrOrIter) : RequestMethodPred :=
  ⟨as_sorted_tuple val⟩

/-- Python `RequestMethodPredicate.text`. -/
def RequestMethodPred.text (p : RequestMethodPred) : String :=
  "request_method = " ++ String.intercalate "," p.val

/-- Python `RequestMethodPredicate.phash = text`. -/
def RequestMethodPred.phash : RequestMethodPred → String :=
  RequestMethodPred.text

/-- Python `RequestMethodPredicate.__call__`: `request.method in self.val`. -/
def requestMethodCall (p : RequestMethodPred) (_context : PyVal)
    (request : Request) : Bool :=
  p.val.contains request.method

/-- Python `PathInfoPredicate`: keeps the original pattern string and the
compiled pattern. -/
structure PathInfoPred where
  orig : String
  val : Re
deriving DecidableEq

/-- Python `PathInfoPredicate.__init__`: compile the pattern; on `re.error why`
raise `ConfigurationError(why.args[0])`. -/
def pathInfoInit (val : String) : Except PyExc PathInfoPred :=
  match reCompile val with
  | .error why => .error (.configurationError why)
  | .ok r => .ok ⟨val, r⟩

/-- Python `PathInfoPredicate.text`: `'path_info = %s' % (self.orig,)`. -/
def PathInfoPred.text (p : PathInfoPred) : String :=
  "path_info = " ++ p.orig

/-- Python `PathInfoPredicate.phash = text`. -/
def PathInfoPred.phash : PathInfoPred → String :=
  PathInfoPred.text

/-- Python `PathInfoPredicate.__call__`:
`self.val.match(request.upath_info) is not None`. -/
def pathInfoCall (p : PathInfoPred) (_context : PyVal)
    (request : Request) : Bool :=
  matchFromStart p.val request.upath_info.toList

/-- Python `RequestParamPredicate`: parameter name, optional expected value, and
the text built at construction time. -/
structure RequestParamPred where
  name : String
  val : Option String
  txt : String
deriving DecidableEq

/-- Python `RequestParamPredicate.__init__`: split on the first `=` and strip
both sides only when `=` occurs; otherwise the raw string is the name. -/
def requestParamInit (val : String) : RequestParamPred :=
  match splitOnce '=' val with
  | Option.none => ⟨val, Option.none, "request_param " ++ val⟩
  | some (n, v) =>
    ⟨pyStrip n, some (pyStrip v),
      "request_param " ++ pyStrip n ++ " = " ++ pyStrip v⟩

/-- Python `RequestParamPredicate.text`: returns the stored `self._text`. -/
def RequestParamPred.text (p : RequestParamPred) : String :=
  p.txt

/-- Python `RequestParamPredicate.phash = text`. -/
def RequestParamPred.phash : RequestParamPred → String :=
  RequestParamPred.text

/-- Python `RequestParamPredicate.__call__`: existence mode tests key
membership; value mode compares `request.params.get(self.name)` with the
stored value (`None == v` is false). -/
def requestParamCall (p : RequestParamPred) (_context : PyVal)
    (request : Request) : Bool :=
  match p.val with
  | Option.none => (request.params.lookup p.name).isSome
  | some v =>
    match request.params.lookup p.name with
    | Option.none => false
    | some pv => pv == v

/-- Python 2-era `str()` of a compiled `SRE_Pattern` object: the default
object representation, which embeds the object's memory address (`id`),
here abstracted as the `addr` parameter. -/
def sreRepr (addr : Nat) : String :=
  "<_sre.SRE_Pattern object at 0x" ++ String.mk (Nat.toDigits 16 addr) ++ ">"

/-- Python `HeaderPredicate`: header name, optional compiled pattern, and the
text built at construction time. -/
structure HeaderPred where
  name : String
  val : Option Re
  txt : String
deriving DecidableEq

/-- Python `HeaderPredicate.__init__`: split on the first `:`; when a pattern is
present, compile it (raising `ConfigurationError(why.args[0])` on
failure) and build `'header %s = %s' % (name, v)` — where `v` has already
been rebound to the compiled pattern object, so `%s` renders the
compiled object's `str()`, which depends on the object's address
(`addr`), not on the pattern string. -/
def headerInit (val : String) (addr : Nat) : Except PyExc HeaderPred :=
  match splitOnce ':' val with
  | Option.none => .ok ⟨val, Option.none, "header " ++ val⟩
  | some (name, pat) =>
    match reCompile pat with
    | .error why => .error (.configurationError why)
    | .ok r => .ok ⟨name, some r, "header " ++ name ++ " = " ++ sreRepr addr⟩

/-- Python `HeaderPredicate.text`: returns the stored `self._text`. -/
def HeaderPred.text (p : HeaderPred) : String :=
  p.txt

/-- Python `HeaderPredicate.phash = text`. -/
def HeaderPred.phash : HeaderPred → String :=
  HeaderPred.text

/-- Python `HeaderPredicate.__call__`: existence mode tests presence; pattern
mode gets the header value, returns false when it is `None`, else tests
`self.val.match(val) is not None`. -/
def headerCall (p : HeaderPred) (_context : PyVal) (request : Request) :
    Bool :=
  match p.val with
  | Option.none => (request.headers.lookup p.name).isSome
  | some r =>
    match request.headers.lookup p.name with
    | Option.none => false
    | some v => matchFromStart r v.toList

/-- The `text()` of `HeaderPredicate(val)` when construction succeeds
(observing the constructed instance through `text`). -/
def headerTextOf (val : String) (addr : Nat) : Option String :=
  match headerInit val addr with
  | .ok h => some h.text
  | .error _ => Option.none

/-- Python `AcceptPredicate`: stores the media type verbatim. -/
structure AcceptPred where
  val : String
deriving DecidableEq

/-- Python `AcceptPredicate.__init__`. -/
def acceptInit (val : String) : AcceptPred :=
  ⟨val⟩

/-- Python `AcceptPredicate.text`. -/
def AcceptPred.text (p : AcceptPred) : String :=
  "accept = " ++ p.val

/-- Python `AcceptPredicate.phash = text`. -/
def AcceptPred.phash : AcceptPred → String :=
  AcceptPred.text

/-- Python `AcceptPredicate.__call__`: `self.val in request.accept` (membership
in the content-negotiation collaborator, modelled as a list). -/
def acceptCall (p : AcceptPred) (_context : PyVal) (request : Request) :
    Bool :=
  request.accept.contains p.val

/-- Python `ContainmentPredicate`: stores `config.maybe_dotted(val)`; the
resolved interface marker is an external collaborator value, modelled by
its `str()` as used in `text`. Its `__call__` delegates entirely to the
external `find_interface` collaborator and is not modelled (no claim
touches it). -/
structure ContainmentPred where
  val : String
deriving DecidableEq

/-- Python `ContainmentPredicate.text`: `'containment = %s' % (self.val,)`. -/
def ContainmentPred.text (p : ContainmentPred) : String :=
  "containment = " ++ p.val

/-- Python `ContainmentPredicate.phash = text`. -/
def ContainmentPred.phash : ContainmentPred → String :=
  ContainmentPred.text

/-- Python `RequestTypePredicate`: stores the interface marker, modelled by its
`str()`. Its `__call__` delegates to the external `providedBy` test and
is not modelled (no claim touches it). -/
structure RequestTypePred where
  val : String
deriving DecidableEq

/-- Python `RequestTypePredicate.text`: `'request_type = %s' % (self.val,)`. -/
def RequestTypePred.text (p : RequestTypePred) : String :=
  "request_type = " ++ p.val

/-- Python `RequestTypePredicate.phash = text`. -/
def RequestTypePred.phash : RequestTypePred → String :=
  RequestTypePred.text

/-- Python `MatchParamPredicate`: the sorted raw strings and the stripped
`(key, value)` pairs. -/
structure MatchParamPred where
  val : List String
  reqs : List (String × String)
deriving DecidableEq

/-- The unpacking `[(x.strip(), y.strip()) for x, y in reqs]` over
`reqs = [p.split('=', 1) for p in val]`: a string without `=` splits
into a single part and the 2-tuple unpacking raises `ValueError`. -/
def buildReqs : List String → Except PyExc (List (String × String))
  | [] => .ok []
  | p :: rest =>
    match splitOnce '=' p with
    | Option.none => .error (.valueError "need more than 1 value to unpack")
    | some (x, y) =>
      (buildReqs rest).map (fun r => (pyStrip x, pyStrip y) :: r)

/-- Python `MatchParamPredicate.__init__`: wrap a bare string into a 1-tuple,
sort the raw strings, then split and strip each. -/
def matchParamInit (val : StrOrIter) : Except PyExc MatchParamPred :=
  let l := pySorted (stiToList val)
  (buildReqs l).map (fun reqs => ⟨l, reqs⟩)

/-- Python `MatchParamPredicate.text`:
`'match_param %s' % ','.join(['%s=%s' % (x, y) for x, y in self.reqs])`. -/
def MatchParamPred.text (p : MatchParamPred) : String :=
  "match_param " ++
    String.intercalate "," (p.reqs.map (fun q => q.1 ++ "=" ++ q.2))

/-- Python `MatchParamPred.phash = text`. -/
def MatchParamPred.phash : MatchParamPred → String :=
  MatchParamPred.text

/-- Python `MatchParamPredicate.__call__`: every stored pair must appear exactly
in `request.matchdict` (`get` yields `None` for a missing key, which
never equals a string value). -/
def matchParamCall (p : MatchParamPred) (_context : PyVal)
    (request : Request) : Bool :=
  p.reqs.all (fun q => request.matchdict.lookup q.1 == some q.2)

/-- The `text()` of `MatchParamPredicate(val)` when construction
succeeds. -/
def matchParamTextOf (val : StrOrIter) : Option String :=
  match matchParamInit val with
  | .ok m => some m.text
  | .error _ => Option.none

/-- The wrapped callable of a `CustomPredicate`: its Python `hash()`
value, its optional `__text__` attribute, and `object_description` of it
(`pyramid.util` is external; modelled as an opaque string field). The
callable's behavior itself is not needed by any claim about `text` or
`phash`. -/
structure CustomFunc where
  hashv : Int
  textAttr : Option String
  desc : String
deriving DecidableEq

/-- Python `CustomPredicate`: wraps the callable. -/
structure CustomPred where
  func : CustomFunc
deriving DecidableEq

/-- Python `CustomPredicate.text`: `getattr(self.func, '__text__', 'custom
predicate: %s' % object_description(self.func))`. -/
def CustomPred.text (p : CustomPred) : String :=
  p.func.textAttr.getD ("custom predicate: " ++ p.func.desc)

/-- Python `CustomPredicate.phash`: `'custom:%r' % hash(self.func)` — `%r` of an
integer is its decimal representation. -/
def CustomPred.phash (p : CustomPred) : String :=
  "custom:" ++ toString p.func.hashv

/-- The route match sub-dictionary mutated by `TraversePredicate`: its
string-valued placeholder entries (§6 types `matchdict` as
`mapping(string→string)`) plus the injected `'traverse'` entry, which
holds a sequence of path segments and is therefore kept apart from the
string-valued entries. -/
structure MatchDict where
  params : List (String × String)
  traverse : Option (List String)

/-- The route-matching info dict handed to `TraversePredicate.__call__`:
an optional top-level `'traverse'` override and the `'match'`
sub-dictionary. -/
structure Info where
  traverseKey : Option String
  matchd : MatchDict

/-- Python `s.split(sep)` for a single-character separator (structural
recursion so the kernel can evaluate it). -/
def splitCharAux (sep : Char) : List Char → List Char → List String
  | [], acc => [String.mk acc.reverse]
  | c :: cs, acc =>
    if c = sep then String.mk acc.reverse :: splitCharAux sep cs []
    else splitCharAux sep cs (c :: acc)

/-- Python `s.split(sep)` on a string. -/
def splitChar (sep : Char) (s : String) : List String :=
  splitCharAux sep s.toList []

/-- Modelled from the spec: the traversal-path splitter (§6;
`pyramid.traversal.traversal_path` is not under src/) — "given a
URL-quoted string, returns an ordered sequence of decoded path
segments". -/
def traversal_path (s : String) : List String :=
  (splitChar '/' s).filter (fun seg => seg ≠ "")

/-- Fill one segment of a traverse pattern from the match dict:
`:name` and `{name}` segments are placeholders, everything else is
literal. -/
def fillSeg (m : List (String × String)) (seg : String) : String :=
  match seg.toList with
  | ':' :: rest => (m.lookup (String.mk rest)).getD ""
  | '{' :: rest =>
    if rest.getLast? = some '}' then
      (m.lookup (String.mk (rest.dropLast))).getD ""
    else seg
  | _ => seg

/-- Modelled from the spec: the route-pattern compiler's generator half
(§6; `pyramid.urldispatch._compile_route` is not under src/) — "given a
pattern string with placeholders, returns a generator that fills
placeholders from a match-dict and returns a URL-quoted string". -/
def compileRouteGen (pat : String) : List (String × String) → String :=
  fun m => String.intercalate "/" ((splitChar '/' pat).map (fillSeg m))

/-- Python `TraversePredicate`: the generator produced by `_compile_route` and
the original pattern. -/
structure TraversePred where
  tgenerate : List (String × String) → String
  val : String

/-- Python `TraversePredicate.__init__`:
`_, self.tgenerate = _compile_route(val)`. -/
def traverseInit (val : String) : TraversePred :=
  ⟨compileRouteGen val, val⟩

/-- Python `TraversePredicate.text`: a fixed constant. -/
def TraversePred.text (_p : TraversePred) : String :=
  "traverse matchdict pseudo-predicate"

/-- Python `TraversePredicate.phash`: the fixed empty string. -/
def TraversePred.phash (_p : TraversePred) : String :=
  ""

/-- Python `TraversePredicate.__call__`: if the info dict already has a
top-level `'traverse'` key, return true unchanged; otherwise run the
generator on the `'match'` sub-dict and store the split traversal path
under `match['traverse']`, returning true. Returns the (possibly
mutated) info dict alongside the boolean. -/
def traverseCall (p : TraversePred) (context : Info) : Info × Bool :=
  if context.traverseKey.isSome then (context, true)
  else
    let m := context.matchd
    let tvalue := p.tgenerate m.params
    ({ context with matchd := { m with traverse := some (traversal_path tvalue) } },
      true)

example :
    (traverseCall (traverseInit "/1/:a/:b")
        ⟨Option.none, ⟨[("a", "a"), ("b", "b")], Option.none⟩⟩).1.matchd.traverse =
      some ["1", "a", "b"] := by decide

/-- C4: for every predicate variant except `CustomPredicate` and
`TraversePredicate` (XHR, RequestMethod, PathInfo, RequestParam, Header,
Accept, Containment, RequestType, MatchParam), `phash()` returns exactly
the same string as `text()` on every instance; `TraversePredicate.phash`
differs from its `text` on every instance, and there are
`CustomPredicate` instances whose `phash` differs from their `text`. -/
theorem c4_phash_eq_text :
    (∀ p : XHRPred, p.phash = p.text) ∧
    (∀ p : RequestMethodPred, p.phash = p.text) ∧
    (∀ p : PathInfoPred, p.phash = p.text) ∧
    (∀ p : RequestParamPred, p.phash = p.text) ∧
    (∀ p : HeaderPred, p.phash = p.text) ∧
    (∀ p : AcceptPred, p.phash = p.text) ∧
    (∀ p : ContainmentPred, p.phash = p.text) ∧
    (∀ p : RequestTypePred, p.phash = p.text) ∧
    (∀ p : MatchParamPred, p.phash = p.text) ∧
    (∀ p : TraversePred, p.phash ≠ p.text) ∧
    (∃ p : CustomPred, p.phash ≠ p.text) := by
  refine ⟨fun _ => rfl, fun _ => rfl, fun _ => rfl, fun _ => rfl,
    fun _ => rfl, fun _ => rfl, fun _ => rfl, fun _ => rfl, fun _ => rfl,
    fun p => ?_, ⟨⟨⟨0, Option.none, ""⟩⟩, ?_⟩⟩
  · show ("" : String) ≠ "traverse matchdict pseudo-predicate"
    decide
  · show CustomPred.phash ⟨⟨0, Option.none, ""⟩⟩ ≠
      CustomPred.text ⟨⟨0, Option.none, ""⟩⟩
    decide

/-- C5: `PathInfoPredicate` construction propagates the regex compiler's
own diagnostic, unmodified, inside a `ConfigurationError` (never a
generic error) whenever the pattern fails to compile, and succeeds
whenever the pattern compiles. -/
theorem c5_pathinfo_ctor (pat : String) :
    (∀ msg, reCompile pat = .error msg →
      pathInfoInit pat = .error (.configurationError msg)) ∧
    ((reCompile pat).isOk = true → (pathInfoInit pat).isOk = true) := by
  constructor
  · intro msg h
    simp [pathInfoInit, h]
  · intro h
    cases hc : reCompile pat with
    | error e => rw [hc] at h; cases h
    | ok r => simp [pathInfoInit, hc, Except.isOk, Except.toBool]

/-- Witness for C5: the single-backslash pattern fails to compile and
construction surfaces a `ConfigurationError` carrying the engine's
message. -/
theorem c5_pathinfo_ctor_witness :
    pathInfoInit "\\" =
      .error (.configurationError "bogus escape (end of line)") :=
  (c5_pathinfo_ctor "\\").1 "bogus escape (end of line)" (by decide)

/-- C8: `CustomPredicate.phash()` depends only on the hash value of the
wrapped callable: two callables with equal hash values (even if
otherwise distinct objects) yield equal `phash()`. -/
theorem c8_custom_phash_hash_only (f g : CustomFunc)
    (h : f.hashv = g.hashv) :
    CustomPred.phash ⟨f⟩ = CustomPred.phash ⟨g⟩ := by
  simp [CustomPred.phash, h]

/-- Witness for C8: two distinct callables with hash 1 (one with a
`__text__` attribute, one without, different descriptions) share the
`phash` `"custom:1"`. -/
theorem c8_custom_phash_hash_only_witness :
    CustomPred.phash ⟨⟨1, Option.none, "predicate"⟩⟩ =
      CustomPred.phash ⟨⟨1, some "t", "other object"⟩⟩ :=
  c8_custom_phash_hash_only ⟨1, Option.none, "predicate"⟩
    ⟨1, some "t", "other object"⟩ rfl

/-- C9: `RequestParamPredicate` trims the name and value only when the
input contains `=`; in existence mode the raw input string is the
parameter name verbatim — in the stored text and in the evaluation's
key-membership test. -/
theorem c9_requestparam_trim (s : String) :
    (hasChar '=' s = false →
      requestParamInit s = ⟨s, Option.none, "request_param " ++ s⟩ ∧
      ∀ (ctx : PyVal) (req : Request),
        requestParamCall (requestParamInit s) ctx req =
          (req.params.lookup s).isSome) ∧
    (∀ n v, splitOnce '=' s = some (n, v) →
      requestParamInit s =
        ⟨pyStrip n, some (pyStrip v),
          "request_param " ++ pyStrip n ++ " = " ++ pyStrip v⟩) := by
  constructor
  · intro h
    have hn : splitOnce '=' s = Option.none :=
      (splitOnce_isNone_iff '=' s).mpr h
    constructor
    · simp [requestParamInit, hn]
    · intro ctx req
      simp [requestParamCall, requestParamInit, hn]
  · intro n v h
    simp [requestParamInit, h]

/-- Witness for C9: the input `" abc "` (no `=`) keeps its surrounding
whitespace both in the stored name and in the text. -/
theorem c9_requestparam_trim_witness :
    requestParamInit " abc " =
      ⟨" abc ", Option.none, "request_param  abc "⟩ :=
  ((c9_requestparam_trim " abc ").1 (by decide)).1

/-- C10: `XHRPredicate` construction boolean-coerces its input, so
constructing from `v` is observationally identical to constructing from
`bool(v)` (same instance, text, phash, and evaluation on every request),
and evaluation boolean-coerces the request's XHR flag before the
comparison. -/
theorem c10_xhr_bool_coercion (v : PyVal) :
    xhrInit v = xhrInit (.bool (pyBool v)) ∧
    (xhrInit v).text = (xhrInit (.bool (pyBool v))).text ∧
    (xhrInit v).phash = (xhrInit (.bool (pyBool v))).phash ∧
    ∀ (ctx : PyVal) (req : Request),
      xhrCall (xhrInit v) ctx req =
        xhrCall (xhrInit (.bool (pyBool v))) ctx req ∧
      xhrCall (xhrInit v) ctx req = (pyBool req.is_xhr == pyBool v) :=
  ⟨rfl, rfl, rfl, fun _ _ => ⟨rfl, rfl⟩⟩

theorem buildReqs_isOk_iff (l : List String) :
    (buildReqs l).isOk = true ↔ ∀ s ∈ l, hasChar '=' s = true := by
  induction l with
  | nil => simp [buildReqs, Except.isOk, Except.toBool]
  | cons p rest ih =>
    cases hs : splitOnce '=' p with
    | none =>
      have hp : hasChar '=' p = false := (splitOnce_isNone_iff '=' p).mp hs
      simp [buildReqs, hs, Except.isOk, Except.toBool, hp]
    | some q =>
      have hp : hasChar '=' p = true := by
        cases hc : hasChar '=' p
        · rw [(splitOnce_isNone_iff '=' p).mpr hc] at hs; cases hs
        · rfl
      obtain ⟨x, y⟩ := q
      cases hb : buildReqs rest with
      | error e =>
        have hrest : ¬ ∀ s ∈ rest, hasChar '=' s = true := by
          rw [← ih, hb]; simp [Except.isOk, Except.toBool]
        simp [buildReqs, hs, hb, Except.map, Except.isOk, Except.toBool,
          hp, hrest]
      | ok r =>
        have hrest : ∀ s ∈ rest, hasChar '=' s = true :=
          ih.mp (by rw [hb]; rfl)
        simp only [buildReqs, hs, hb, Except.map, Except.isOk,
          Except.toBool, List.mem_cons, forall_eq_or_imp, hp, true_and,
          true_iff]
        exact hrest

theorem matchParamInit_isOk_iff (v : StrOrIter) :
    (matchParamInit v).isOk = true ↔
      ∀ s ∈ stiToList v, hasChar '=' s = true := by
  have hperm : List.Perm (pySorted (stiToList v)) (stiToList v) :=
    List.perm_insertionSort pyLeProp (stiToList v)
  have hmap : (matchParamInit v).isOk =
      (buildReqs (pySorted (stiToList v))).isOk := by
    unfold matchParamInit
    cases hb : buildReqs (pySorted (stiToList v)) <;>
      simp [hb, Except.map, Except.isOk, Except.toBool]
  rw [hmap, buildReqs_isOk_iff]
  exact ⟨fun h s hs => h s (hperm.mem_iff.mpr hs),
    fun h s hs => h s (hperm.mem_iff.mp hs)⟩

/-- C2 (counterexample): `MatchParamPredicate('abc')` — a plain string
with no `=` — does raise (the 2-tuple unpacking of the single-element
split fails with a `ValueError`), contradicting "construction never
raises ... including strings that contain no '='". -/
theorem c2_matchparam_ctor_raises :
    matchParamInit (.str "abc") =
      .error (.valueError "need more than 1 value to unpack") := by
  decide

/-- C2 (amended): construction raises only for a regex pattern that
fails to compile (`PathInfoPredicate`, `HeaderPredicate`) or, in
`MatchParamPredicate`, when some input string contains no `=` (a generic
`ValueError` from tuple unpacking): `MatchParamPredicate` construction
succeeds exactly when every input string contains `=`, and the other two
succeed exactly when their pattern (if any) compiles. -/
theorem c2_construction_failures (v : StrOrIter) (pat hval : String)
    (a : Nat) :
    ((matchParamInit v).isOk = true ↔
      ∀ s ∈ stiToList v, hasChar '=' s = true) ∧
    (pathInfoInit pat).isOk = (reCompile pat).isOk ∧
    (headerInit hval a).isOk =
      ((splitOnce ':' hval).map (fun q => (reCompile q.2).isOk)).getD
        true := by
  refine ⟨matchParamInit_isOk_iff v, ?_, ?_⟩
  · unfold pathInfoInit
    cases reCompile pat <;> rfl
  · unfold headerInit
    cases hs : splitOnce ':' hval with
    | none => rfl
    | some q =>
      obtain ⟨n0, p0⟩ := q
      cases hc : reCompile p0 with
      | error e => simp [hc, Except.isOk, Except.toBool]
      | ok r => simp [hc, Except.isOk, Except.toBool]

/-- Witness for C2's amended theorem: a two-element input whose strings
both contain `=` constructs successfully. -/
theorem c2_construction_failures_witness :
    (matchParamInit (.iter ["a=b", "c=d"])).isOk = true :=
  ((c2_construction_failures (.iter ["a=b", "c=d"]) "/" "X" 0).1).mpr
    (by decide)

/-- C3: `TraversePredicate` evaluation is idempotent — if the info dict
already has a top-level `'traverse'` key, the call is a no-op returning
true; and a second application after any first application returns true
and leaves the dict exactly as the first application left it. -/
theorem c3_traverse_idempotent (p : TraversePred) (info : Info) :
    (info.traverseKey.isSome = true → traverseCall p info = (info, true)) ∧
    traverseCall p (traverseCall p info).1 =
      ((traverseCall p info).1, true) := by
  constructor
  · intro h
    simp [traverseCall, h]
  · cases hk : info.traverseKey with
    | some v => simp [traverseCall, hk]
    | none => simp [traverseCall, hk]

/-- Witness for C3: an info dict that already carries `'traverse'` is
returned untouched with result true. -/
theorem c3_traverse_idempotent_witness :
    traverseCall (traverseInit "/1/:a/:b")
        ⟨some "abc", ⟨[], Option.none⟩⟩ =
      (⟨some "abc", ⟨[], Option.none⟩⟩, true) :=
  (c3_traverse_idempotent (traverseInit "/1/:a/:b")
    ⟨some "abc", ⟨[], Option.none⟩⟩).1 rfl

/-- C6: `HeaderPredicate` evaluation — existence mode returns exactly
header presence; pattern mode returns true iff the header is present and
its value matches the compiled pattern from position 0; an absent header
in pattern mode yields false. -/
theorem c6_header_eval (h : HeaderPred) (ctx : PyVal) (req : Request) :
    (h.val = Option.none →
      headerCall h ctx req = (req.headers.lookup h.name).isSome) ∧
    (∀ r, h.val = some r →
      (headerCall h ctx req = true ↔
        ∃ v, req.headers.lookup h.name = some v ∧
          matchFromStart r v.toList = true)) ∧
    (h.val ≠ Option.none → req.headers.lookup h.name = Option.none →
      headerCall h ctx req = false) := by
  refine ⟨?_, ?_, ?_⟩
  · intro hv
    simp [headerCall, hv]
  · intro r hv
    simp only [headerCall, hv]
    cases hl : req.headers.lookup h.name with
    | none => simp [hl]
    | some v => simp [hl]
  · intro hv hl
    cases hval : h.val with
    | none => exact absurd hval hv
    | some r => simp [headerCall, hval, hl]

/-- Witness for C6: a pattern-mode predicate on header `X-Foo` with
pattern `b` matches a request carrying `X-Foo: bar` (the pattern matches
from the start of the value, consuming only a prefix). -/
theorem c6_header_eval_witness :
    headerCall ⟨"X-Foo", some (.cls (.lit 'b')), "t"⟩ PyVal.none
      ⟨PyVal.none, "GET", "/", [], [("X-Foo", "bar")], [], []⟩ = true :=
  ((c6_header_eval ⟨"X-Foo", some (.cls (.lit 'b')), "t"⟩ PyVal.none
      ⟨PyVal.none, "GET", "/", [], [("X-Foo", "bar")], [], []⟩).2.1
    (.cls (.lit 'b')) rfl).mpr ⟨"bar", rfl, by decide⟩

/-- C7 (counterexample): two set-equal input collections — one with a
duplicate — produce different texts, because `sorted(val)` keeps
duplicates; so "for any two set-equal input collections the texts are
equal" fails as stated. -/
theorem c7_setequal_counterexample :
    matchParamTextOf (.iter ["abc=1", "abc=1"]) ≠
        matchParamTextOf (.iter ["abc=1"]) ∧
    (["abc=1", "abc=1"] : List String).dedup = ["abc=1"].dedup := by
  exact ⟨by decide, by decide⟩

/-- C7 (amended): `MatchParamPredicate.text()` is canonical and
construction-order independent — the pairs are ordered by sorting the
raw input strings, so any two inputs that are permutations of each other
(in particular, set-equal duplicate-free collections) give equal texts;
and `MatchParamPredicate(('def=1','abc=2')).text()` is
`'match_param abc=2,def=1'`. -/
theorem c7_matchparam_text_canonical :
    (∀ l1 l2 : List String, l1.Perm l2 →
      matchParamTextOf (.iter l1) = matchParamTextOf (.iter l2)) ∧
    matchParamTextOf (.iter ["def=1", "abc=2"]) =
      some "match_param abc=2,def=1" := by
  constructor
  · intro l1 l2 hperm
    unfold matchParamTextOf matchParamInit
    rw [show pySorted (stiToList (.iter l1)) =
        pySorted (stiToList (.iter l2)) from pySorted_eq_of_perm hperm]
  · decide

/-- Witness for C7's amended theorem: the two orderings of
`('def=1','abc=2')` give byte-identical texts. -/
theorem c7_matchparam_text_canonical_witness :
    matchParamTextOf (.iter ["def=1", "abc=2"]) =
      matchParamTextOf (.iter ["abc=2", "def=1"]) :=
  c7_matchparam_text_canonical.1 ["def=1", "abc=2"] ["abc=2", "def=1"]
    (List.Perm.swap "abc=2" "def=1" [])

/-- C1: evaluation of the code at `HeaderPredicate('X-Foo:bar')`. The
stored text interpolates `str()` of the *compiled* pattern object (the
identity-bearing default object representation), so `text()` is not
`'header X-Foo = bar'`, and two instances constructed from the same
input string at different object addresses have different texts — the
text is identity-based, not value-based. -/
theorem c1_header_text_identity_based :
    headerTextOf "X-Foo:bar" 0 =
      some "header X-Foo = <_sre.SRE_Pattern object at 0x0>" ∧
    headerTextOf "X-Foo:bar" 0 ≠ some "header X-Foo = bar" ∧
    headerTextOf "X-Foo:bar" 0 ≠ headerTextOf "X-Foo:bar" 1 := by
  exact ⟨by decide, by decide, by decide⟩

end Pyramid
